import Mathlib

/-!
# Shallow embedding of `src/wlt_toolkit.c` (wlt — Wayland toolkit helpers)

This file models the window/frame lifecycle and input-dispatch engine of
`wlt_toolkit.c`: the display readiness state machine (`check_ready`,
`seat_capabilities`, `dp_global`), the shared-memory buffer pool and resize
path (`resize_window`, `wlt_window_do_redraw`), the frame scheduler
(`schedule_frame`, `do_frame`, `wlt_window_set_size`), buffer sub-rectangle
access (`wlt_window_get_buffer`), deferred close (`wlt_window_close`,
`close_window`), the keyboard modifier-mask translation
(`get_effective_modmask`, `keyboard_key`) and pointer focus handling
(`pointer_leave`).

External protocol objects (wl_surface, wl_buffer, wl_shm_pool) are abstract
handles; protocol side effects (attach/damage/destroy requests) are outside
the modelled state.  Widget callbacks are modelled by whether each optional
slot is set, so that invocations can be counted; the `prepare_resize`
callback is modelled by its value function since its result feeds back into
the resize algorithm.
-/

set_option maxHeartbeats 1000000

namespace WltToolkit

/-- Connection states `STATE_INIT`, `STATE_RUNNING`, `STATE_HUP`. -/
inductive ConnState
  | init
  | running
  | hup
  deriving DecidableEq

/-- A widget's optional callback slots (`struct wlt_widget`).  Every slot
except `prepare` is modelled by whether it is set, which is all that is
needed to count invocations; `prepare` (the `prepare_resize_cb`) is the
widget's size-adjustment function, whose result the resize algorithm uses. -/
structure Widget where
  prepare : Option (Nat → Nat → Nat × Nat)
  hasResizeCb : Bool
  hasRedrawCb : Bool
  hasKeyboardCb : Bool
  hasPointerLvCb : Bool

/-- The display-connection state (`struct wlt_display`): connection state,
the four bound globals, the two seat devices, the count of READY and HUP
broadcasts made via `shl_hook_call`, the tracked serials, and the pointer
focus (modelled as the focused window's widget list). -/
structure DispState where
  state : ConnState
  w_comp : Bool
  w_seat : Bool
  w_shell : Bool
  w_shm : Bool
  w_pointer : Bool
  w_keyboard : Bool
  readyCount : Nat
  hupCount : Nat
  last_serial : Nat
  pointer_enter_serial : Nat
  pointer_focus : Option (List Widget)

/-- The six readiness conditions of `check_ready`, conjoined. -/
def allSix (d : DispState) : Bool :=
  d.w_comp && d.w_seat && d.w_shell && d.w_shm && d.w_pointer && d.w_keyboard

/-- `check_ready`: if the state already left `STATE_INIT`, return; otherwise,
when all six conditions hold, enter `STATE_RUNNING` and broadcast
`WLT_DISPLAY_READY` (counted in `readyCount`).  Loading the cursor theme is
an external effect and not modelled. -/
def check_ready (d : DispState) : DispState :=
  if d.state ≠ ConnState.init then d
  else if allSix d then
    { d with state := ConnState.running, readyCount := d.readyCount + 1 }
  else d

/-- First `if` block of `seat_capabilities`: obtain the pointer device when
the capability bit is set and the device is not yet held. -/
def seatCapsPointer (d : DispState) (pointer : Bool) : DispState :=
  if pointer && !d.w_pointer then { d with w_pointer := true } else d

/-- Second `if` block of `seat_capabilities`: obtain the keyboard device
when the capability bit is set and the device is not yet held. -/
def seatCapsKeyboard (d : DispState) (keyboard : Bool) : DispState :=
  if keyboard && !d.w_keyboard then { d with w_keyboard := true } else d

/-- `seat_capabilities`: obtain the pointer and/or keyboard device when the
capability bit is set and the device is not yet held, then re-check
readiness. -/
def seat_capabilities (d : DispState) (pointer keyboard : Bool) : DispState :=
  check_ready (seatCapsKeyboard (seatCapsPointer d pointer) keyboard)

/-- `dp_global` for `wl_compositor`: a second advertisement of an already
bound global is logged and ignored (no readiness re-check); a first
advertisement binds the global and re-checks readiness.  A failed
`wl_display_bind` leaves the global unbound exactly as if it never arrived,
so binds are modelled as succeeding. -/
def dp_global_comp (d : DispState) : DispState :=
  if d.w_comp then d else check_ready { d with w_comp := true }

/-- `dp_global` for `wl_seat` (see `dp_global_comp`). -/
def dp_global_seat (d : DispState) : DispState :=
  if d.w_seat then d else check_ready { d with w_seat := true }

/-- `dp_global` for `wl_shell` (see `dp_global_comp`). -/
def dp_global_shell (d : DispState) : DispState :=
  if d.w_shell then d else check_ready { d with w_shell := true }

/-- `dp_global` for `wl_shm` (see `dp_global_comp`). -/
def dp_global_shm (d : DispState) : DispState :=
  if d.w_shm then d else check_ready { d with w_shm := true }

/-- The asynchronous events that drive the readiness state machine: the four
recognized global advertisements, a `seat_capabilities` notification, the
transport HUP/ERR condition handled by `dp_event`, and an unrecognized
global (ignored by `dp_global`). -/
inductive WltEvent
  | globalCompositor
  | globalSeat
  | globalShell
  | globalShm
  | seatCaps (pointer keyboard : Bool)
  | hupEvent
  | otherGlobal
  deriving DecidableEq

/-- One event-handler activation of the display connection. -/
def step (d : DispState) (e : WltEvent) : DispState :=
  match e with
  | WltEvent.globalCompositor => dp_global_comp d
  | WltEvent.globalSeat => dp_global_seat d
  | WltEvent.globalShell => dp_global_shell d
  | WltEvent.globalShm => dp_global_shm d
  | WltEvent.seatCaps p k => seat_capabilities d p k
  | WltEvent.hupEvent =>
      { d with state := ConnState.hup, hupCount := d.hupCount + 1 }
  | WltEvent.otherGlobal => d

/-- The freshly created display connection (`wlt_display_new` zeroes the
structure): state `STATE_INIT`, nothing bound, no broadcasts. -/
def initDisp : DispState :=
  { state := ConnState.init, w_comp := false, w_seat := false,
    w_shell := false, w_shm := false, w_pointer := false, w_keyboard := false,
    readyCount := 0, hupCount := 0, last_serial := 0,
    pointer_enter_serial := 0, pointer_focus := none }

/-- Process an event sequence from the initial connection state. -/
def runEvents (l : List WltEvent) : DispState := l.foldl step initDisp

/-- Number of widgets in a list whose pointer-leave callback is set. -/
def countPointerLv (ws : List Widget) : Nat :=
  ws.countP (fun w => w.hasPointerLvCb)

/-- `pointer_leave`: remember the focused window, clear the focus, update
`last_serial`, and if a window was focused invoke every widget's
pointer-leave callback (returned as the invocation count). -/
def pointer_leave (d : DispState) (serial : Nat) : DispState × Nat :=
  let wnd := d.pointer_focus
  let d1 := { d with pointer_focus := none, last_serial := serial }
  match wnd with
  | none => (d1, 0)
  | some ws => (d1, countPointerLv ws)

/-- Modelled from the spec: the `TSM_*` modifier-mask constants of
`tsm_vte.h` (not under `src/`); the spec describes them as five independent
bits (shift, caps-lock, control, alt, logo). -/
def TSM_SHIFT_MASK : Nat := 1

/-- Modelled from the spec: caps-lock bit, see `TSM_SHIFT_MASK`. -/
def TSM_LOCK_MASK : Nat := 2

/-- Modelled from the spec: control bit, see `TSM_SHIFT_MASK`. -/
def TSM_CONTROL_MASK : Nat := 4

/-- Modelled from the spec: alt bit, see `TSM_SHIFT_MASK`. -/
def TSM_MOD1_MASK : Nat := 8

/-- Modelled from the spec: logo bit, see `TSM_SHIFT_MASK`. -/
def TSM_MOD4_MASK : Nat := 16

/-- The answers `xkb_state_mod_name_is_active` gives for the five modifier
names queried by `get_effective_modmask`. -/
structure XkbMods where
  shift : Bool
  caps : Bool
  ctrl : Bool
  alt : Bool
  logo : Bool

/-- `get_effective_modmask`: build the effective modifier mask by OR-ing in
one `TSM_*` bit per active modifier. -/
def get_effective_modmask (s : XkbMods) : Nat :=
  let mods := 0
  let mods := if s.shift then mods ||| TSM_SHIFT_MASK else mods
  let mods := if s.caps then mods ||| TSM_LOCK_MASK else mods
  let mods := if s.ctrl then mods ||| TSM_CONTROL_MASK else mods
  let mods := if s.alt then mods ||| TSM_MOD1_MASK else mods
  let mods := if s.logo then mods ||| TSM_MOD4_MASK else mods
  mods

/-- `XKB_KEY_NoSymbol`. -/
def XKB_KEY_NoSymbol : Nat := 0

/-- `keyboard_key`: dropped when no xkb state was compiled or no window has
keyboard focus; otherwise computes the modifier mask, resolves the key to a
symbol only when the key maps to exactly one symbol, and invokes every
focused-window widget's keyboard callback.  The result is the list of
dispatched `(mask, sym, pressed)` callback invocations. -/
def keyboard_key (xkbActive : Option XkbMods) (focus : Option (List Widget))
    (syms : List Nat) (pressed : Bool) : List (Nat × Nat × Bool) :=
  match xkbActive with
  | none => []
  | some st =>
    match focus with
    | none => []
    | some ws =>
      let mask := get_effective_modmask st
      let sym :=
        match syms with
        | [s] => s
        | _ => XKB_KEY_NoSymbol
      ws.filterMap (fun w =>
        if w.hasKeyboardCb then some (mask, sym, pressed) else none)

/-- Modelled from the spec: `struct wlt_shm_buffer` is declared in
`wlt_toolkit.h` (not under `src/`); the spec (§3) describes it as the view
{width, height, stride, data pointer}, taken here as natural numbers with
`data = 0` standing for the null pointer. -/
structure ShmBuffer where
  width : Nat
  height : Nat
  stride : Nat
  data : Nat
  deriving DecidableEq

/-- Modelled from the spec: `struct wlt_rect` of `wlt_toolkit.h` (not under
`src/`), the rectangle {x, y, width, height} taken as natural numbers. -/
structure WltRect where
  x : Nat
  y : Nat
  width : Nat
  height : Nat
  deriving DecidableEq

/-- `wlt_window_get_buffer` restricted to its committed-buffer input: with
no rectangle the committed view is copied out whole; a rectangle whose
origin lies at or beyond the committed extent yields the zeroed view;
otherwise width and height are clipped to the committed extent, the stride
is the committed stride, and the data pointer is offset by
`y * stride + x * 4`. -/
def wlt_window_get_buffer (rbuf : ShmBuffer) (alloc : Option WltRect) :
    ShmBuffer :=
  match alloc with
  | none => rbuf
  | some a =>
    if rbuf.width ≤ a.x ∨ rbuf.height ≤ a.y then
      { width := 0, height := 0, stride := 0, data := 0 }
    else
      { width := if rbuf.width < a.x + a.width then rbuf.width - a.x
                 else a.width,
        height := if rbuf.height < a.y + a.height then rbuf.height - a.y
                  else a.height,
        stride := rbuf.stride,
        data := rbuf.data + a.y * rbuf.stride + a.x * 4 }

/-- A shared-memory pool (`struct wlt_pool`): the mapped region's base
address and its size.  `wlt_pool_new` always sets `size` to the requested
size. -/
structure Pool where
  base : Nat
  size : Nat
  deriving DecidableEq

/-- The window state (`struct wlt_window`): widget list, pool, server-side
buffer handle, committed buffer view, and the frame/close scheduling
flags. -/
structure WinState where
  widgets : List Widget
  pool : Option Pool
  w_buffer : Option Nat
  buffer : ShmBuffer
  buffer_attached : Bool
  skip_damage : Bool
  need_resize : Bool
  need_redraw : Bool
  need_frame : Bool
  idle_pending : Bool
  close_pending : Bool
  new_width : Nat
  new_height : Nat
  resize_edges : Nat
  w_frame : Bool
  hasCloseCb : Bool

/-- The outcomes of the fallible external allocations performed during one
`resize_window` call: the base address of the pool `wlt_pool_new` would map
(`none` = pool creation fails) and the handle `wl_shm_pool_create_buffer`
would return (`none` = buffer creation fails). -/
structure AllocOracle where
  newPoolBase : Option Nat
  newBuffer : Option Nat

/-- Observable side effects of one resize/redraw/frame operation: widget
callback invocation counts, allocations, surface attachments, and the
arguments of each `resize_window` invocation performed by `do_frame`. -/
structure RLog where
  prepareCalls : Nat
  resizeCbCalls : Nat
  redrawCbCalls : Nat
  buffersCreated : Nat
  poolsCreated : Nat
  attachCount : Nat
  resizeRuns : List (Nat × Nat)
  deriving DecidableEq

/-- The empty effect log. -/
def RLog.nil : RLog :=
  { prepareCalls := 0, resizeCbCalls := 0, redrawCbCalls := 0,
    buffersCreated := 0, poolsCreated := 0, attachCount := 0,
    resizeRuns := [] }

/-- Sequential composition of effect logs. -/
def RLog.merge (a b : RLog) : RLog :=
  { prepareCalls := a.prepareCalls + b.prepareCalls,
    resizeCbCalls := a.resizeCbCalls + b.resizeCbCalls,
    redrawCbCalls := a.redrawCbCalls + b.redrawCbCalls,
    buffersCreated := a.buffersCreated + b.buffersCreated,
    poolsCreated := a.poolsCreated + b.poolsCreated,
    attachCount := a.attachCount + b.attachCount,
    resizeRuns := a.resizeRuns ++ b.resizeRuns }

/-- The prepare-resize loop at the top of `resize_window`: each widget with
a `prepare_resize_cb` adjusts the proposed width/height in list order. -/
def adjustSize (ws : List Widget) (width height : Nat) : Nat × Nat :=
  ws.foldl
    (fun wh w =>
      match w.prepare with
      | none => wh
      | some f => f wh.1 wh.2)
    (width, height)

/-- Number of widgets with a `prepare_resize_cb` set. -/
def countPrepare (ws : List Widget) : Nat :=
  ws.countP (fun w => w.prepare.isSome)

/-- Number of widgets with a `resize_cb` set. -/
def countResizeCb (ws : List Widget) : Nat :=
  ws.countP (fun w => w.hasResizeCb)

/-- Number of widgets with a `redraw_cb` set. -/
def countRedrawCb (ws : List Widget) : Nat :=
  ws.countP (fun w => w.hasRedrawCb)

/-- `wlt_window_do_redraw`: broadcast the allocation rectangle to every
widget's resize callback, zero the buffer memory (external to the model),
invoke every widget's redraw callback under the `skip_damage` guard, and on
the first attachment after a resize attach the buffer (the protocol attach
request itself is an external effect, counted in `attachCount`) and clear
`resize_edges`; finally damage the full buffer area (external effect).
`oldw`/`oldh` feed only the protocol attach offset, which is outside the
modelled state. -/
def wlt_window_do_redraw (w : WinState) (oldw oldh : Nat) : WinState × RLog :=
  let nResize := countResizeCb w.widgets
  let w1 := { w with skip_damage := true }
  let nRedraw := countRedrawCb w1.widgets
  let w2 := { w1 with skip_damage := false }
  let attaching := !w2.buffer_attached
  let w3 :=
    if attaching then
      { w2 with buffer_attached := true, resize_edges := 0 }
    else w2
  (w3,
   { RLog.nil with
     resizeCbCalls := nResize,
     redrawCbCalls := nRedraw,
     attachCount := if attaching then 1 else 0 })

/-- The `wnd->pool && wnd->pool->size >= nsize` test of `resize_window`. -/
def poolFits (pool : Option Pool) (nsize : Nat) : Bool :=
  match pool with
  | none => false
  | some p => nsize ≤ p.size

/-- `wlt_pool_new` as seen by `resize_window`: on success the new pool maps
a region of exactly the requested size at the address the oracle supplies;
on failure nothing changes.  (`-EFAULT` stands here for any of the negative
codes `wlt_pool_new` reports.) -/
def wlt_pool_new (o : AllocOracle) (nsize : Nat) : Option Pool :=
  match o.newPoolBase with
  | none => none
  | some b => some { base := b, size := nsize }

/-- `resize_window`: reject zero dimensions (`-EINVAL`); let widgets adjust
the size; return 0 if the adjusted size equals the committed size; otherwise
carve a new buffer from the existing pool if it is large enough, else from a
freshly allocated pool.  On any allocation failure the previous
buffer/pool/view are restored unchanged and a negative error is returned.
On success the committed view is rewritten (stride `width * 4`, data at the
pool base), the buffer is marked unattached, a redraw runs, and the old
buffer handle / replaced pool are released (external effects). -/
def resize_window (o : AllocOracle) (w : WinState) (width0 height0 : Nat) :
    Int × WinState × RLog :=
  if width0 = 0 ∨ height0 = 0 then (-22, w, RLog.nil)
  else
    let wh := adjustSize w.widgets width0 height0
    let width := wh.1
    let height := wh.2
    let plog := { RLog.nil with prepareCalls := countPrepare w.widgets }
    if width = w.buffer.width ∧ height = w.buffer.height then
      (0, w, plog)
    else
      let oldw := w.buffer.width
      let oldh := w.buffer.height
      let nsize := width * height * 4
      if poolFits w.pool nsize then
        match o.newBuffer with
        | none => (-12, { w with w_buffer := w.w_buffer }, plog)
        | some b =>
          let w1 := { w with w_buffer := some b }
          let w2 :=
            { w1 with
              buffer :=
                { width := width, height := height, stride := width * 4,
                  data := w1.pool.elim 0 Pool.base },
              buffer_attached := false }
          let wr := wlt_window_do_redraw w2 oldw oldh
          (0, wr.1,
           RLog.merge (RLog.merge plog { RLog.nil with buffersCreated := 1 })
             wr.2)
      else
        let old_pool := w.pool
        match wlt_pool_new o nsize with
        | none => (-14, { w with pool := old_pool }, plog)
        | some npool =>
          match o.newBuffer with
          | none => (-12, { w with pool := old_pool }, plog)
          | some b =>
            let w1 := { w with pool := some npool, w_buffer := some b }
            let w2 :=
              { w1 with
                buffer :=
                  { width := width, height := height, stride := width * 4,
                    data := npool.base },
                buffer_attached := false }
            let wr := wlt_window_do_redraw w2 oldw oldh
            (0, wr.1,
             RLog.merge
               (RLog.merge plog
                 { RLog.nil with buffersCreated := 1, poolsCreated := 1 })
               wr.2)

/-- Modelled from the spec: the event-loop collaborator's idle-callback
registry (`eloop.c` is not under `src/`).  Per spec §6 registration and
unregistration use the (callback, data) identity pair as the key, so for a
fixed window the registry holds at most one `idle_frame` entry and at most
one `close_window` entry, modelled as one flag each. -/
structure EloopIdle where
  frameEntry : Bool
  closeEntry : Bool
  deriving DecidableEq

/-- `do_frame`: clear the idle registration and `idle_pending`; if a resize
is pending, clear both `need_resize` and `need_redraw` and run the resize
algorithm with the recorded target; afterwards, if a redraw is (still)
pending, clear it and redraw at the committed size. -/
def do_frame (o : AllocOracle) (w : WinState) (e : EloopIdle) :
    WinState × EloopIdle × RLog :=
  let w0 := { w with idle_pending := false }
  let e0 := { e with frameEntry := false }
  let step1 :=
    if w0.need_resize then
      let wa := { w0 with need_resize := false, need_redraw := false }
      let r := resize_window o wa w0.new_width w0.new_height
      (r.2.1,
       RLog.merge { RLog.nil with resizeRuns := [(w0.new_width, w0.new_height)] }
         r.2.2)
    else (w0, RLog.nil)
  let w1 := step1.1
  let step2 :=
    if w1.need_redraw then
      let wb := { w1 with need_redraw := false }
      wlt_window_do_redraw wb w1.buffer.width w1.buffer.height
    else (w1, RLog.nil)
  (step2.1, e0, RLog.merge step1.2 step2.2)

/-- `frame_callback`: the server's frame-presentation notification destroys
the callback handle, clears `need_frame`, and services the frame. -/
def frame_callback (o : AllocOracle) (w : WinState) (e : EloopIdle) :
    WinState × EloopIdle × RLog :=
  do_frame o { w with w_frame := false, need_frame := false } e

/-- `idle_frame`: the one-shot idle callback marks a frame in flight and
services the frame. -/
def idle_frame (o : AllocOracle) (w : WinState) (e : EloopIdle) :
    WinState × EloopIdle × RLog :=
  do_frame o { w with need_frame := true } e

/-- `schedule_frame`: absorbed if a frame callback is outstanding or a
request is already pending; otherwise registers the idle callback and
requests a server frame callback. -/
def schedule_frame (w : WinState) (e : EloopIdle) : WinState × EloopIdle :=
  if w.w_frame then (w, e)
  else if !w.need_frame && !w.idle_pending then
    ({ w with idle_pending := true, w_frame := true },
     { e with frameEntry := true })
  else (w, e)

/-- `wlt_window_set_size`: reject zero dimensions, record the target size,
mark the resize pending and request a frame. -/
def wlt_window_set_size (w : WinState) (e : EloopIdle)
    (width height : Nat) : Int × WinState × EloopIdle :=
  if width = 0 ∨ height = 0 then (-22, w, e)
  else
    let w1 :=
      { w with
        new_width := width,
        new_height := height,
        need_resize := true }
    let we := schedule_frame w1 e
    (0, we.1, we.2)

/-- Fold a sequence of `wlt_window_set_size` calls over a window. -/
def applySizes (pairs : List (Nat × Nat)) (w : WinState) (e : EloopIdle) :
    WinState × EloopIdle :=
  pairs.foldl
    (fun we p =>
      let r := wlt_window_set_size we.1 we.2 p.1 p.2
      (r.2.1, r.2.2))
    (w, e)

/-- `wlt_window_close`: mark the close pending and register the deferred
`close_window` idle callback. -/
def wlt_window_close (w : WinState) (e : EloopIdle) : WinState × EloopIdle :=
  ({ w with close_pending := true }, { e with closeEntry := true })

/-- `close_window`: the deferred idle callback unregisters itself, clears
`close_pending`, and invokes the registered close callback if any (returned
as the invocation count). -/
def close_window (w : WinState) (e : EloopIdle) : WinState × EloopIdle × Nat :=
  let e1 := { e with closeEntry := false }
  let w1 := { w with close_pending := false }
  (w1, e1, if w.hasCloseCb then 1 else 0)

/-- One idle-loop turn, as far as the close entry is concerned: dispatch
`close_window` if it is registered. -/
def runCloseIdleTurn (w : WinState) (e : EloopIdle) :
    WinState × EloopIdle × Nat :=
  if e.closeEntry then close_window w e else (w, e, 0)

/-- Does an event advertise the `wl_compositor` global? -/
def evComp : WltEvent → Bool
  | WltEvent.globalCompositor => true
  | _ => false

/-- Does an event advertise the `wl_seat` global? -/
def evSeat : WltEvent → Bool
  | WltEvent.globalSeat => true
  | _ => false

/-- Does an event advertise the `wl_shell` global? -/
def evShell : WltEvent → Bool
  | WltEvent.globalShell => true
  | _ => false

/-- Does an event advertise the `wl_shm` global? -/
def evShm : WltEvent → Bool
  | WltEvent.globalShm => true
  | _ => false

/-- Does an event deliver the pointer seat capability? -/
def evPtr : WltEvent → Bool
  | WltEvent.seatCaps p _ => p
  | _ => false

/-- Does an event deliver the keyboard seat capability? -/
def evKbd : WltEvent → Bool
  | WltEvent.seatCaps _ k => k
  | _ => false

/-- Is an event the transport HUP condition? -/
def evHup : WltEvent → Bool
  | WltEvent.hupEvent => true
  | _ => false

/-- Invariant of the readiness state machine: RUNNING is justified by the
six conditions, the READY broadcast count never exceeds one and is exactly
one iff RUNNING was entered, and whenever the six conditions hold the
connection is RUNNING unless it already hung up. -/
abbrev GoodState (d : DispState) : Prop :=
  (d.state = ConnState.running → allSix d = true) ∧
  (d.state = ConnState.init → d.readyCount = 0) ∧
  d.readyCount ≤ 1 ∧
  (allSix d = true → d.state ≠ ConnState.hup → d.state = ConnState.running) ∧
  (d.state = ConnState.running → d.readyCount = 1)

/-- A concrete running window used by the witnesses: 100×100 committed
buffer, no widgets, no pending work. -/
def w100 : WinState :=
  { widgets := [], pool := none, w_buffer := none,
    buffer := { width := 100, height := 100, stride := 400, data := 0 },
    buffer_attached := true, skip_damage := false, need_resize := false,
    need_redraw := false, need_frame := false, idle_pending := false,
    close_pending := false, new_width := 0, new_height := 0,
    resize_edges := 0, w_frame := false, hasCloseCb := true }

/-- `w100` with a pending 100×100 resize and a pending redraw, used by the
C10 witness. -/
def w100Pending : WinState :=
  { w100 with
    need_resize := true,
    need_redraw := true,
    new_width := 100,
    new_height := 100 }

/-! ## Helper lemmas -/

lemma check_ready_w_comp (d : DispState) :
    (check_ready d).w_comp = d.w_comp := by
  unfold check_ready
  split
  · rfl
  · split <;> rfl

lemma check_ready_w_seat (d : DispState) :
    (check_ready d).w_seat = d.w_seat := by
  unfold check_ready
  split
  · rfl
  · split <;> rfl

lemma check_ready_w_shell (d : DispState) :
    (check_ready d).w_shell = d.w_shell := by
  unfold check_ready
  split
  · rfl
  · split <;> rfl

lemma check_ready_w_shm (d : DispState) :
    (check_ready d).w_shm = d.w_shm := by
  unfold check_ready
  split
  · rfl
  · split <;> rfl

lemma check_ready_w_pointer (d : DispState) :
    (check_ready d).w_pointer = d.w_pointer := by
  unfold check_ready
  split
  · rfl
  · split <;> rfl

lemma check_ready_w_keyboard (d : DispState) :
    (check_ready d).w_keyboard = d.w_keyboard := by
  unfold check_ready
  split
  · rfl
  · split <;> rfl

lemma check_ready_state_or (d : DispState) :
    (check_ready d).state = d.state ∨
      (check_ready d).state = ConnState.running := by
  unfold check_ready
  split
  · exact Or.inl rfl
  · split
    · exact Or.inr rfl
    · exact Or.inl rfl

lemma do_redraw_buffer (w : WinState) (a b : Nat) :
    (wlt_window_do_redraw w a b).1.buffer = w.buffer := by
  cases h : w.buffer_attached <;> simp [wlt_window_do_redraw, h]

lemma do_redraw_need_redraw (w : WinState) (a b : Nat) :
    (wlt_window_do_redraw w a b).1.need_redraw = w.need_redraw := by
  cases h : w.buffer_attached <;> simp [wlt_window_do_redraw, h]

lemma do_redraw_need_resize (w : WinState) (a b : Nat) :
    (wlt_window_do_redraw w a b).1.need_resize = w.need_resize := by
  cases h : w.buffer_attached <;> simp [wlt_window_do_redraw, h]

lemma do_redraw_runs (w : WinState) (a b : Nat) :
    (wlt_window_do_redraw w a b).2.resizeRuns = [] := by
  cases h : w.buffer_attached <;> simp [wlt_window_do_redraw, h, RLog.nil]

lemma resize_window_noop_eq (o : AllocOracle) (w : WinState) (wd ht : Nat)
    (h1 : wd ≠ 0) (h2 : ht ≠ 0)
    (h3 : adjustSize w.widgets wd ht = (w.buffer.width, w.buffer.height)) :
    resize_window o w wd ht =
      (0, w, { RLog.nil with prepareCalls := countPrepare w.widgets }) := by
  unfold resize_window
  rw [if_neg (by simp [h1, h2])]
  simp [h3]

lemma modmask_bits_aux (sh ca ct al lo : Bool) :
    Nat.testBit (get_effective_modmask ⟨sh, ca, ct, al, lo⟩) 0 = sh ∧
    Nat.testBit (get_effective_modmask ⟨sh, ca, ct, al, lo⟩) 1 = ca ∧
    Nat.testBit (get_effective_modmask ⟨sh, ca, ct, al, lo⟩) 2 = ct ∧
    Nat.testBit (get_effective_modmask ⟨sh, ca, ct, al, lo⟩) 3 = al ∧
    Nat.testBit (get_effective_modmask ⟨sh, ca, ct, al, lo⟩) 4 = lo := by
  revert sh ca ct al lo
  decide

/-! ## Claim theorems -/

/-- C5: when the widget-adjusted resize target equals the committed buffer
size, `resize_window` returns 0, leaves the window (committed view, buffer
handle, pool) unchanged, allocates no buffer and no pool, and invokes no
widget resize or redraw callback. -/
theorem resize_to_same_size_is_noop (o : AllocOracle) (w : WinState)
    (wd ht : Nat) (h1 : wd ≠ 0) (h2 : ht ≠ 0)
    (h3 : adjustSize w.widgets wd ht = (w.buffer.width, w.buffer.height)) :
    (resize_window o w wd ht).1 = 0 ∧
    (resize_window o w wd ht).2.1 = w ∧
    (resize_window o w wd ht).2.2.buffersCreated = 0 ∧
    (resize_window o w wd ht).2.2.poolsCreated = 0 ∧
    (resize_window o w wd ht).2.2.resizeCbCalls = 0 ∧
    (resize_window o w wd ht).2.2.redrawCbCalls = 0 := by
  rw [resize_window_noop_eq o w wd ht h1 h2 h3]
  exact ⟨rfl, rfl, rfl, rfl, rfl, rfl⟩

/-- Witness for C5 at a concrete window: resizing the 100×100 window `w100`
to 100×100 succeeds and changes nothing. -/
theorem resize_to_same_size_is_noop_witness :
    (resize_window ⟨none, none⟩ w100 100 100).1 = 0 ∧
    (resize_window ⟨none, none⟩ w100 100 100).2.1 = w100 ∧
    (resize_window ⟨none, none⟩ w100 100 100).2.2.buffersCreated = 0 ∧
    (resize_window ⟨none, none⟩ w100 100 100).2.2.poolsCreated = 0 ∧
    (resize_window ⟨none, none⟩ w100 100 100).2.2.resizeCbCalls = 0 ∧
    (resize_window ⟨none, none⟩ w100 100 100).2.2.redrawCbCalls = 0 :=
  resize_to_same_size_is_noop ⟨none, none⟩ w100 100 100 (by decide) (by decide)
    rfl

/-- C6: `wlt_window_get_buffer` returns a view clipped exactly to the
intersection of the requested rectangle with the committed extent; a
rectangle whose origin lies at or beyond the committed width or height
yields the all-zero view. -/
theorem get_buffer_clips (rbuf : ShmBuffer) (a : WltRect) :
    ((rbuf.width ≤ a.x ∨ rbuf.height ≤ a.y) →
      wlt_window_get_buffer rbuf (some a) =
        { width := 0, height := 0, stride := 0, data := 0 }) ∧
    (a.x < rbuf.width → a.y < rbuf.height →
      (wlt_window_get_buffer rbuf (some a)).width
          = min a.width (rbuf.width - a.x) ∧
      (wlt_window_get_buffer rbuf (some a)).height
          = min a.height (rbuf.height - a.y)) := by
  constructor
  · intro h
    simp [wlt_window_get_buffer, h]
  · intro hx hy
    simp only [wlt_window_get_buffer]
    rw [if_neg (by omega)]
    constructor
    · show (if rbuf.width < a.x + a.width then rbuf.width - a.x
            else a.width) = _
      split <;> omega
    · show (if rbuf.height < a.y + a.height then rbuf.height - a.y
            else a.height) = _
      split <;> omega

/-- Witness for C6: a 200×20 rectangle at (30,10) in a 100×50 buffer is
clipped to 70×20. -/
theorem get_buffer_clips_witness :
    (wlt_window_get_buffer ⟨100, 50, 400, 1000⟩
        (some ⟨30, 10, 200, 20⟩)).width = min 200 (100 - 30) ∧
    (wlt_window_get_buffer ⟨100, 50, 400, 1000⟩
        (some ⟨30, 10, 200, 20⟩)).height = min 20 (50 - 10) :=
  (get_buffer_clips ⟨100, 50, 400, 1000⟩ ⟨30, 10, 200, 20⟩).2 (by decide)
    (by decide)

/-- C7: for a rectangle whose origin is inside the committed extent, the
returned view's data pointer is `base + y * stride + x * 4` and its stride
is the committed stride; and `resize_window` maintains the invariant that
the committed stride is 4 times the committed width (every successful
resize establishes it, every other path preserves it). -/
theorem stride_and_data_law (rbuf : ShmBuffer) (a : WltRect)
    (o : AllocOracle) (w : WinState) (wd ht : Nat) :
    (a.x < rbuf.width → a.y < rbuf.height →
      (wlt_window_get_buffer rbuf (some a)).data
          = rbuf.data + a.y * rbuf.stride + a.x * 4 ∧
      (wlt_window_get_buffer rbuf (some a)).stride = rbuf.stride) ∧
    (w.buffer.stride = 4 * w.buffer.width →
      ((resize_window o w wd ht).2.1).buffer.stride
        = 4 * ((resize_window o w wd ht).2.1).buffer.width) := by
  constructor
  · intro hx hy
    simp only [wlt_window_get_buffer]
    rw [if_neg (by omega)]
    exact ⟨rfl, rfl⟩
  · intro hinv
    by_cases h0 : wd = 0 ∨ ht = 0
    · simp only [resize_window, if_pos h0]
      exact hinv
    · simp only [resize_window, if_neg h0]
      split
      · exact hinv
      · split
        · rcases hb : o.newBuffer with _ | b <;> simp only [hb]
          · exact hinv
          · rw [do_redraw_buffer]
            ring
        · rcases hp : o.newPoolBase with _ | pb <;>
            simp only [wlt_pool_new, hp]
          · exact hinv
          · rcases hb : o.newBuffer with _ | b <;> simp only [hb]
            · exact hinv
            · rw [do_redraw_buffer]
              ring

/-- Witness for C7 at concrete inputs: the data-pointer law at rectangle
(30,10) in a 100×50 buffer, and the stride invariant across a resize of
`w100` to 50×200 (which fails to allocate here, preserving stride 400 =
4·100). -/
theorem stride_and_data_law_witness :
    ((wlt_window_get_buffer ⟨100, 50, 400, 1000⟩
        (some ⟨30, 10, 200, 20⟩)).data = 1000 + 10 * 400 + 30 * 4 ∧
     (wlt_window_get_buffer ⟨100, 50, 400, 1000⟩
        (some ⟨30, 10, 200, 20⟩)).stride = 400) ∧
    ((resize_window ⟨none, none⟩ w100 50 200).2.1).buffer.stride
      = 4 * ((resize_window ⟨none, none⟩ w100 50 200).2.1).buffer.width :=
  ⟨(stride_and_data_law ⟨100, 50, 400, 1000⟩ ⟨30, 10, 200, 20⟩
      ⟨none, none⟩ w100 50 200).1 (by decide) (by decide),
   (stride_and_data_law ⟨100, 50, 400, 1000⟩ ⟨30, 10, 200, 20⟩
      ⟨none, none⟩ w100 50 200).2 rfl⟩

/-- C8: each of the five modifier-mask bits is set iff the corresponding
modifier is active, independently of the other four; in particular with
exactly Shift and Control active the mask is the OR of the Shift and
Control bits, and `keyboard_key` dispatches exactly that mask to every
widget keyboard callback. -/
theorem modmask_correct (sh ca ct al lo : Bool) :
    ((sh = true ∧ ct = true ∧ ca = false ∧ al = false ∧ lo = false) →
      get_effective_modmask ⟨sh, ca, ct, al, lo⟩
        = (TSM_SHIFT_MASK ||| TSM_CONTROL_MASK)) ∧
    (Nat.testBit (get_effective_modmask ⟨sh, ca, ct, al, lo⟩) 0 = sh ∧
     Nat.testBit (get_effective_modmask ⟨sh, ca, ct, al, lo⟩) 1 = ca ∧
     Nat.testBit (get_effective_modmask ⟨sh, ca, ct, al, lo⟩) 2 = ct ∧
     Nat.testBit (get_effective_modmask ⟨sh, ca, ct, al, lo⟩) 3 = al ∧
     Nat.testBit (get_effective_modmask ⟨sh, ca, ct, al, lo⟩) 4 = lo) ∧
    (∀ (ws : List Widget) (syms : List Nat) (pressed : Bool)
       (ev : Nat × Nat × Bool),
       ev ∈ keyboard_key (some ⟨sh, ca, ct, al, lo⟩) (some ws) syms pressed →
       ev.1 = get_effective_modmask ⟨sh, ca, ct, al, lo⟩) := by
  refine ⟨?_, modmask_bits_aux sh ca ct al lo, ?_⟩
  · rintro ⟨h1, h2, h3, h4, h5⟩
    subst h1; subst h2; subst h3; subst h4; subst h5
    decide
  · intro ws syms pressed ev hev
    simp only [keyboard_key, List.mem_filterMap] at hev
    obtain ⟨wg, _, hsome⟩ := hev
    by_cases h : wg.hasKeyboardCb
    · simp only [h, if_true] at hsome
      cases hsome
      rfl
    · simp [h] at hsome

/-- Witness for C8: with Shift and Control active (Caps/Alt/Logo inactive)
the computed mask is the OR of the Shift and Control bits. -/
theorem modmask_correct_witness :
    get_effective_modmask ⟨true, false, true, false, false⟩
      = (TSM_SHIFT_MASK ||| TSM_CONTROL_MASK) :=
  (modmask_correct true false true false false).1 ⟨rfl, rfl, rfl, rfl, rfl⟩

/-- C9 counterexample: a pointer-leave event arriving with no focused
window still overwrites the tracked last serial, so the connection state is
not left unchanged as the claim states. -/
theorem pointer_leave_serial_changes :
    (pointer_leave { initDisp with last_serial := 7 } 5).1.last_serial ≠
      ({ initDisp with last_serial := 7 } : DispState).last_serial := by
  decide

/-- C9 (amended): a pointer-leave arriving when no window holds pointer
focus invokes no widget callback and leaves the connection state unchanged
— pointer focus stays cleared, globals, readiness and the enter serial are
untouched — except that the tracked last serial is set to the event's
serial. -/
theorem pointer_leave_no_focus (d : DispState) (serial : Nat)
    (h : d.pointer_focus = none) :
    (pointer_leave d serial).2 = 0 ∧
    (pointer_leave d serial).1 = { d with last_serial := serial } := by
  obtain ⟨st, c1, c2, c3, c4, c5, c6, rc, hc, ls, pes, pf⟩ := d
  dsimp at h
  subst h
  exact ⟨rfl, rfl⟩

/-- Witness for C9 (amended) at the initial connection state and serial 5. -/
theorem pointer_leave_no_focus_witness :
    (pointer_leave initDisp 5).2 = 0 ∧
    (pointer_leave initDisp 5).1 = { initDisp with last_serial := 5 } :=
  pointer_leave_no_focus initDisp 5 rfl

/-- C4: closing a window twice before the deferred close callback fires
invokes the registered close callback exactly once — the same outcome as a
single close call — and the following idle turn invokes nothing further. -/
theorem close_twice_idempotent (w : WinState) (e : EloopIdle)
    (hcb : w.hasCloseCb = true) :
    (let once := wlt_window_close w e
     let twice := wlt_window_close once.1 once.2
     let turn1 := runCloseIdleTurn twice.1 twice.2
     (runCloseIdleTurn once.1 once.2).2.2 = 1 ∧
     turn1.2.2 = 1 ∧
     (runCloseIdleTurn turn1.1 turn1.2.1).2.2 = 0) := by
  simp [wlt_window_close, runCloseIdleTurn, close_window, hcb]

/-- Witness for C4 at the concrete window `w100` with an empty idle
registry. -/
theorem close_twice_idempotent_witness :
    (let once := wlt_window_close w100 ⟨false, false⟩
     let twice := wlt_window_close once.1 once.2
     let turn1 := runCloseIdleTurn twice.1 twice.2
     (runCloseIdleTurn once.1 once.2).2.2 = 1 ∧
     turn1.2.2 = 1 ∧
     (runCloseIdleTurn turn1.1 turn1.2.1).2.2 = 0) :=
  close_twice_idempotent w100 ⟨false, false⟩ rfl

lemma resize_window_cases (o : AllocOracle) (w : WinState) (wd ht : Nat) :
    (resize_window o w wd ht).2.1 = w ∨ (resize_window o w wd ht).1 = 0 := by
  by_cases h0 : wd = 0 ∨ ht = 0
  · left
    simp only [resize_window, if_pos h0]
  · simp only [resize_window, if_neg h0]
    split
    · right
      trivial
    · split
      · rcases hb : o.newBuffer with _ | b
        · left
          simp only [hb]
        · right
          simp only [hb]
      · rcases hp : o.newPoolBase with _ | pb
        · left
          simp only [wlt_pool_new, hp]
        · rcases hb : o.newBuffer with _ | b
          · left
            simp only [wlt_pool_new, hp, hb]
          · right
            simp only [wlt_pool_new, hp, hb]

lemma resize_window_need_redraw (o : AllocOracle) (w : WinState)
    (wd ht : Nat) :
    (resize_window o w wd ht).2.1.need_redraw = w.need_redraw := by
  by_cases h0 : wd = 0 ∨ ht = 0
  · simp only [resize_window, if_pos h0]
  · simp only [resize_window, if_neg h0]
    split
    · rfl
    · split
      · rcases hb : o.newBuffer with _ | b
        · simp only [hb]
        · simp only [hb]
          exact do_redraw_need_redraw _ _ _
      · rcases hp : o.newPoolBase with _ | pb
        · simp only [wlt_pool_new, hp]
        · rcases hb : o.newBuffer with _ | b
          · simp only [wlt_pool_new, hp, hb]
          · simp only [wlt_pool_new, hp, hb]
            exact do_redraw_need_redraw _ _ _

lemma resize_window_runs (o : AllocOracle) (w : WinState) (wd ht : Nat) :
    (resize_window o w wd ht).2.2.resizeRuns = [] := by
  by_cases h0 : wd = 0 ∨ ht = 0
  · simp only [resize_window, if_pos h0]
    rfl
  · simp only [resize_window, if_neg h0]
    split
    · rfl
    · split
      · rcases hb : o.newBuffer with _ | b
        · simp only [hb]
          rfl
        · simp [hb, RLog.merge, RLog.nil, do_redraw_runs]
      · rcases hp : o.newPoolBase with _ | pb
        · simp only [wlt_pool_new, hp]
          rfl
        · rcases hb : o.newBuffer with _ | b
          · simp only [wlt_pool_new, hp, hb]
            rfl
          · simp [wlt_pool_new, hp, hb, RLog.merge, RLog.nil, do_redraw_runs]

lemma do_frame_runs_le (o : AllocOracle) (w : WinState) (e : EloopIdle) :
    (do_frame o w e).2.2.resizeRuns.length ≤ 1 := by
  by_cases hnr : w.need_resize
  · simp only [do_frame, hnr]
    simp only [if_true]
    split <;>
      simp [RLog.merge, RLog.nil, resize_window_runs, do_redraw_runs]
  · simp only [do_frame]
    rw [if_neg (by simpa using hnr)]
    split <;> simp [RLog.merge, RLog.nil, do_redraw_runs]

lemma do_frame_runs_eq (o : AllocOracle) (w : WinState) (e : EloopIdle)
    (hnr : w.need_resize = true) :
    (do_frame o w e).2.2.resizeRuns = [(w.new_width, w.new_height)] := by
  simp only [do_frame, hnr]
  simp only [if_true]
  rw [if_neg ?hred]
  case hred =>
    rw [resize_window_need_redraw]
    simp
  simp [RLog.merge, RLog.nil, resize_window_runs]

lemma schedule_frame_fields (w : WinState) (e : EloopIdle) :
    (schedule_frame w e).1.new_width = w.new_width ∧
    (schedule_frame w e).1.new_height = w.new_height ∧
    (schedule_frame w e).1.need_resize = w.need_resize := by
  unfold schedule_frame
  split
  · exact ⟨rfl, rfl, rfl⟩
  · split
    · exact ⟨rfl, rfl, rfl⟩
    · exact ⟨rfl, rfl, rfl⟩

lemma set_size_fields (w : WinState) (e : EloopIdle) (wd ht : Nat)
    (h1 : wd ≠ 0) (h2 : ht ≠ 0) :
    (wlt_window_set_size w e wd ht).2.1.new_width = wd ∧
    (wlt_window_set_size w e wd ht).2.1.new_height = ht ∧
    (wlt_window_set_size w e wd ht).2.1.need_resize = true := by
  unfold wlt_window_set_size
  rw [if_neg (by simp [h1, h2])]
  obtain ⟨ha, hb, hc⟩ := schedule_frame_fields
    { w with new_width := wd, new_height := ht, need_resize := true } e
  exact ⟨ha, hb, hc⟩

lemma applySizes_nil (w : WinState) (e : EloopIdle) :
    applySizes [] w e = (w, e) := rfl

lemma applySizes_cons (q : Nat × Nat) (t : List (Nat × Nat)) (w : WinState)
    (e : EloopIdle) :
    applySizes (q :: t) w e =
      applySizes t (wlt_window_set_size w e q.1 q.2).2.1
        (wlt_window_set_size w e q.1 q.2).2.2 := rfl

lemma applySizes_target (pairs : List (Nat × Nat)) :
    ∀ (w : WinState) (e : EloopIdle) (p : Nat × Nat),
      pairs.getLast? = some p → (∀ q ∈ pairs, q.1 ≠ 0 ∧ q.2 ≠ 0) →
      (applySizes pairs w e).1.new_width = p.1 ∧
      (applySizes pairs w e).1.new_height = p.2 ∧
      (applySizes pairs w e).1.need_resize = true := by
  induction pairs with
  | nil =>
    intro w e p hp _
    simp at hp
  | cons q rest ih =>
    intro w e p hp hpos
    have hq := hpos q (List.mem_cons_self q rest)
    cases rest with
    | nil =>
      simp at hp
      rw [applySizes_cons, applySizes_nil]
      subst hp
      exact set_size_fields w e q.1 q.2 hq.1 hq.2
    | cons r rest2 =>
      rw [List.getLast?_cons_cons] at hp
      rw [applySizes_cons]
      exact ih _ _ p hp (fun x hx => hpos x (List.mem_cons_of_mem q hx))

/-- C3: whenever `resize_window` returns a negative error the window is
exactly as it was — same buffer handle, same pool, same committed view;
and whenever a resize is actually attempted (nonzero arguments, adjusted
size differs from the committed size) and buffer creation fails, it does
return a negative error. -/
theorem resize_window_failure_safe (o : AllocOracle) (w : WinState)
    (wd ht : Nat) :
    ((resize_window o w wd ht).1 < 0 → (resize_window o w wd ht).2.1 = w) ∧
    (wd ≠ 0 → ht ≠ 0 →
     adjustSize w.widgets wd ht ≠ (w.buffer.width, w.buffer.height) →
     o.newBuffer = none →
     (resize_window o w wd ht).1 < 0) := by
  constructor
  · intro hneg
    rcases resize_window_cases o w wd ht with h | h
    · exact h
    · rw [h] at hneg
      exact absurd hneg (by norm_num)
  · intro h1 h2 h3 hb
    have h0 : ¬(wd = 0 ∨ ht = 0) := by simp [h1, h2]
    simp only [resize_window, if_neg h0]
    rw [if_neg (fun hc => h3 (Prod.ext_iff.mpr hc))]
    split
    · simp only [hb]
      norm_num
    · rcases hp : o.newPoolBase with _ | pb <;> simp only [wlt_pool_new, hp]
      · norm_num
      · simp only [hb]
        norm_num

/-- Witness for C3: growing `w100` to 50×200 with both allocations failing
returns a negative error and leaves `w100` unchanged. -/
theorem resize_window_failure_safe_witness :
    (resize_window ⟨none, none⟩ w100 50 200).1 < 0 ∧
    (resize_window ⟨none, none⟩ w100 50 200).2.1 = w100 :=
  ⟨(resize_window_failure_safe ⟨none, none⟩ w100 50 200).2 (by decide)
      (by decide) (by decide) rfl,
   (resize_window_failure_safe ⟨none, none⟩ w100 50 200).1
     ((resize_window_failure_safe ⟨none, none⟩ w100 50 200).2 (by decide)
       (by decide) (by decide) rfl)⟩

/-- C10: when a frame is serviced with both `need_resize` and `need_redraw`
set and the widget-adjusted target equals the committed size, the frame
performs neither resize nor redraw: both flags end up cleared, no widget
resize or redraw callback runs, the committed view is untouched — the
pending redraw request is dropped. -/
theorem frame_drops_redraw_on_equal_resize (o : AllocOracle) (w : WinState)
    (e : EloopIdle) (hr : w.need_resize = true) (hd : w.need_redraw = true)
    (h1 : w.new_width ≠ 0) (h2 : w.new_height ≠ 0)
    (h3 : adjustSize w.widgets w.new_width w.new_height
            = (w.buffer.width, w.buffer.height)) :
    (do_frame o w e).1.need_resize = false ∧
    (do_frame o w e).1.need_redraw = false ∧
    (do_frame o w e).2.2.resizeCbCalls = 0 ∧
    (do_frame o w e).2.2.redrawCbCalls = 0 ∧
    (do_frame o w e).1.buffer = w.buffer := by
  have hnoop := resize_window_noop_eq o
    { w with
      idle_pending := false,
      need_resize := false,
      need_redraw := false }
    w.new_width w.new_height h1 h2 (by simpa using h3)
  simp only [do_frame, hr]
  simp only [if_true]
  rw [hnoop]
  simp [RLog.merge, RLog.nil]

/-- Witness for C10 at a concrete window: 100×100 committed buffer, both
flags set, resize target 100×100. -/
theorem frame_drops_redraw_on_equal_resize_witness :
    (do_frame ⟨none, none⟩ w100Pending ⟨false, false⟩).1.need_resize = false ∧
    (do_frame ⟨none, none⟩ w100Pending ⟨false, false⟩).1.need_redraw = false ∧
    (do_frame ⟨none, none⟩ w100Pending ⟨false, false⟩).2.2.resizeCbCalls
        = 0 ∧
    (do_frame ⟨none, none⟩ w100Pending ⟨false, false⟩).2.2.redrawCbCalls
        = 0 ∧
    (do_frame ⟨none, none⟩ w100Pending ⟨false, false⟩).1.buffer
      = w100Pending.buffer :=
  frame_drops_redraw_on_equal_resize ⟨none, none⟩ w100Pending ⟨false, false⟩
    rfl rfl (by decide) (by decide) rfl

/-- C2: over any sequence of `wlt_window_set_size` calls made before the
pending frame is serviced, the frame invokes the resize algorithm exactly
once, with exactly the last requested width/height pair; and any serviced
frame runs `resize_window` at most once. -/
theorem set_size_last_wins (o : AllocOracle) (w : WinState) (e : EloopIdle)
    (pairs : List (Nat × Nat)) (p : Nat × Nat)
    (hlast : pairs.getLast? = some p)
    (hpos : ∀ q ∈ pairs, q.1 ≠ 0 ∧ q.2 ≠ 0) :
    (∀ (w1 : WinState) (e1 : EloopIdle),
        (do_frame o w1 e1).2.2.resizeRuns.length ≤ 1) ∧
    (do_frame o (applySizes pairs w e).1
        (applySizes pairs w e).2).2.2.resizeRuns = [p] := by
  obtain ⟨hw, hh, hr⟩ := applySizes_target pairs w e p hlast hpos
  refine ⟨fun w1 e1 => do_frame_runs_le o w1 e1, ?_⟩
  rw [do_frame_runs_eq o _ _ hr, hw, hh]

/-- Witness for C2: two queued set-size calls (100×100 then 50×200) on
`w100`; the serviced frame resizes exactly once, to 50×200. -/
theorem set_size_last_wins_witness :
    (do_frame ⟨none, none⟩
        (applySizes [(100, 100), (50, 200)] w100 ⟨false, false⟩).1
        (applySizes [(100, 100), (50, 200)] w100
          ⟨false, false⟩).2).2.2.resizeRuns = [(50, 200)] ∧
    (do_frame ⟨none, none⟩ w100 ⟨false, false⟩).2.2.resizeRuns.length ≤ 1 :=
  ⟨(set_size_last_wins ⟨none, none⟩ w100 ⟨false, false⟩
      [(100, 100), (50, 200)] (50, 200) (by decide) (by decide)).2,
   (set_size_last_wins ⟨none, none⟩ w100 ⟨false, false⟩
      [(100, 100), (50, 200)] (50, 200) (by decide) (by decide)).1 w100
     ⟨false, false⟩⟩

lemma seatCapsPointer_state (d : DispState) (p : Bool) :
    (seatCapsPointer d p).state = d.state := by
  unfold seatCapsPointer
  split <;> rfl

lemma seatCapsPointer_count (d : DispState) (p : Bool) :
    (seatCapsPointer d p).readyCount = d.readyCount := by
  unfold seatCapsPointer
  split <;> rfl

lemma seatCapsKeyboard_state (d : DispState) (k : Bool) :
    (seatCapsKeyboard d k).state = d.state := by
  unfold seatCapsKeyboard
  split <;> rfl

lemma seatCapsKeyboard_count (d : DispState) (k : Bool) :
    (seatCapsKeyboard d k).readyCount = d.readyCount := by
  unfold seatCapsKeyboard
  split <;> rfl

lemma allSix_update_comp (d : DispState) (h : allSix d = true) :
    allSix { d with w_comp := true } = true := by
  simp [allSix] at h ⊢
  tauto

lemma allSix_update_seat (d : DispState) (h : allSix d = true) :
    allSix { d with w_seat := true } = true := by
  simp [allSix] at h ⊢
  tauto

lemma allSix_update_shell (d : DispState) (h : allSix d = true) :
    allSix { d with w_shell := true } = true := by
  simp [allSix] at h ⊢
  tauto

lemma allSix_update_shm (d : DispState) (h : allSix d = true) :
    allSix { d with w_shm := true } = true := by
  simp [allSix] at h ⊢
  tauto

lemma allSix_seatCapsPointer (d : DispState) (p : Bool)
    (h : allSix d = true) : allSix (seatCapsPointer d p) = true := by
  unfold seatCapsPointer
  split
  · simp [allSix] at h ⊢
    tauto
  · exact h

lemma allSix_seatCapsKeyboard (d : DispState) (k : Bool)
    (h : allSix d = true) : allSix (seatCapsKeyboard d k) = true := by
  unfold seatCapsKeyboard
  split
  · simp [allSix] at h ⊢
    tauto
  · exact h

lemma check_ready_good (d : DispState)
    (h1 : d.state = ConnState.running → allSix d = true)
    (h2 : d.state = ConnState.init → d.readyCount = 0)
    (h3 : d.readyCount ≤ 1)
    (h5 : d.state = ConnState.running → d.readyCount = 1) :
    GoodState (check_ready d) := by
  unfold check_ready
  split
  · rename_i hne
    refine ⟨h1, fun hin => absurd hin hne, h3, ?_, h5⟩
    intro _ hhup
    cases hst : d.state with
    | init => exact absurd hst hne
    | running => rfl
    | hup => exact absurd hst hhup
  · rename_i hinit
    have hst : d.state = ConnState.init := not_not.mp hinit
    split
    · rename_i hsix
      refine ⟨fun _ => hsix, ?_, ?_, fun _ _ => rfl, fun _ => ?_⟩
      · intro habs
        exact ConnState.noConfusion habs
      · have h0 := h2 hst
        show d.readyCount + 1 ≤ 1
        omega
      · show d.readyCount + 1 = 1
        rw [h2 hst]
    · rename_i hsix
      refine ⟨?_, h2, h3, ?_, ?_⟩
      · intro hr
        rw [hst] at hr
        exact ConnState.noConfusion hr
      · intro h6 _
        exact absurd h6 hsix
      · intro hr
        rw [hst] at hr
        exact ConnState.noConfusion hr

lemma good_flags_update (d d' : DispState)
    (hstate : d'.state = d.state) (hcount : d'.readyCount = d.readyCount)
    (hmono : allSix d = true → allSix d' = true) (h : GoodState d) :
    GoodState (check_ready d') := by
  obtain ⟨g1, g2, g3, g4, g5⟩ := h
  refine check_ready_good d' ?_ ?_ ?_ ?_
  · intro hr
    rw [hstate] at hr
    exact hmono (g1 hr)
  · intro hin
    rw [hstate] at hin
    rw [hcount]
    exact g2 hin
  · rw [hcount]
    exact g3
  · intro hr
    rw [hstate] at hr
    rw [hcount]
    exact g5 hr

lemma step_good (d : DispState) (e : WltEvent) (h : GoodState d) :
    GoodState (step d e) := by
  obtain ⟨g1, g2, g3, g4, g5⟩ := h
  cases e with
  | globalCompositor =>
    show GoodState (dp_global_comp d)
    unfold dp_global_comp
    split
    · exact ⟨g1, g2, g3, g4, g5⟩
    · exact good_flags_update d _ rfl rfl (allSix_update_comp d)
        ⟨g1, g2, g3, g4, g5⟩
  | globalSeat =>
    show GoodState (dp_global_seat d)
    unfold dp_global_seat
    split
    · exact ⟨g1, g2, g3, g4, g5⟩
    · exact good_flags_update d _ rfl rfl (allSix_update_seat d)
        ⟨g1, g2, g3, g4, g5⟩
  | globalShell =>
    show GoodState (dp_global_shell d)
    unfold dp_global_shell
    split
    · exact ⟨g1, g2, g3, g4, g5⟩
    · exact good_flags_update d _ rfl rfl (allSix_update_shell d)
        ⟨g1, g2, g3, g4, g5⟩
  | globalShm =>
    show GoodState (dp_global_shm d)
    unfold dp_global_shm
    split
    · exact ⟨g1, g2, g3, g4, g5⟩
    · exact good_flags_update d _ rfl rfl (allSix_update_shm d)
        ⟨g1, g2, g3, g4, g5⟩
  | seatCaps p k =>
    show GoodState (seat_capabilities d p k)
    unfold seat_capabilities
    refine good_flags_update d _ ?_ ?_ ?_ ⟨g1, g2, g3, g4, g5⟩
    · rw [seatCapsKeyboard_state, seatCapsPointer_state]
    · rw [seatCapsKeyboard_count, seatCapsPointer_count]
    · exact fun hh =>
        allSix_seatCapsKeyboard _ k (allSix_seatCapsPointer d p hh)
  | hupEvent =>
    refine ⟨?_, ?_, g3, ?_, ?_⟩
    · exact fun hr => ConnState.noConfusion hr
    · exact fun hin => ConnState.noConfusion hin
    · intro _ hhup
      exact absurd rfl hhup
    · exact fun hr => ConnState.noConfusion hr
  | otherGlobal => exact ⟨g1, g2, g3, g4, g5⟩

lemma foldl_good (l : List WltEvent) :
    ∀ d : DispState, GoodState d → GoodState (l.foldl step d) := by
  induction l with
  | nil => exact fun d h => h
  | cons e t ih => exact fun d h => ih (step d e) (step_good d e h)

lemma goodstate_init : GoodState initDisp := by
  refine ⟨?_, fun _ => rfl, ?_, ?_, ?_⟩
  · intro h
    exact absurd h (by decide)
  · decide
  · intro h _
    exact absurd h (by decide)
  · intro h
    exact absurd h (by decide)

lemma step_flags (d : DispState) (e : WltEvent) :
    (step d e).w_comp = (d.w_comp || evComp e) ∧
    (step d e).w_seat = (d.w_seat || evSeat e) ∧
    (step d e).w_shell = (d.w_shell || evShell e) ∧
    (step d e).w_shm = (d.w_shm || evShm e) ∧
    (step d e).w_pointer = (d.w_pointer || evPtr e) ∧
    (step d e).w_keyboard = (d.w_keyboard || evKbd e) := by
  cases e with
  | globalCompositor =>
    simp only [step, evComp, evSeat, evShell, evShm, evPtr, evKbd]
    unfold dp_global_comp
    split
    · rename_i hc
      simp [hc]
    · simp [check_ready_w_comp, check_ready_w_seat, check_ready_w_shell,
        check_ready_w_shm, check_ready_w_pointer, check_ready_w_keyboard]
  | globalSeat =>
    simp only [step, evComp, evSeat, evShell, evShm, evPtr, evKbd]
    unfold dp_global_seat
    split
    · rename_i hc
      simp [hc]
    · simp [check_ready_w_comp, check_ready_w_seat, check_ready_w_shell,
        check_ready_w_shm, check_ready_w_pointer, check_ready_w_keyboard]
  | globalShell =>
    simp only [step, evComp, evSeat, evShell, evShm, evPtr, evKbd]
    unfold dp_global_shell
    split
    · rename_i hc
      simp [hc]
    · simp [check_ready_w_comp, check_ready_w_seat, check_ready_w_shell,
        check_ready_w_shm, check_ready_w_pointer, check_ready_w_keyboard]
  | globalShm =>
    simp only [step, evComp, evSeat, evShell, evShm, evPtr, evKbd]
    unfold dp_global_shm
    split
    · rename_i hc
      simp [hc]
    · simp [check_ready_w_comp, check_ready_w_seat, check_ready_w_shell,
        check_ready_w_shm, check_ready_w_pointer, check_ready_w_keyboard]
  | seatCaps p k =>
    simp only [step, evComp, evSeat, evShell, evShm, evPtr, evKbd]
    unfold seat_capabilities seatCapsKeyboard seatCapsPointer
    cases p <;> cases k <;>
      cases hp : d.w_pointer <;> cases hk : d.w_keyboard <;>
      simp [hp, hk, check_ready_w_comp, check_ready_w_seat,
        check_ready_w_shell, check_ready_w_shm, check_ready_w_pointer,
        check_ready_w_keyboard]
  | hupEvent =>
    simp [step, evComp, evSeat, evShell, evShm, evPtr, evKbd]
  | otherGlobal =>
    simp [step, evComp, evSeat, evShell, evShm, evPtr, evKbd]

lemma foldl_flags (l : List WltEvent) :
    ∀ d : DispState,
      (l.foldl step d).w_comp = (d.w_comp || l.any evComp) ∧
      (l.foldl step d).w_seat = (d.w_seat || l.any evSeat) ∧
      (l.foldl step d).w_shell = (d.w_shell || l.any evShell) ∧
      (l.foldl step d).w_shm = (d.w_shm || l.any evShm) ∧
      (l.foldl step d).w_pointer = (d.w_pointer || l.any evPtr) ∧
      (l.foldl step d).w_keyboard = (d.w_keyboard || l.any evKbd) := by
  induction l with
  | nil =>
    intro d
    simp
  | cons e t ih =>
    intro d
    obtain ⟨ic, is2, ish, ishm, ip, ik⟩ := ih (step d e)
    obtain ⟨sc, ss, ssh, sshm, sp, sk⟩ := step_flags d e
    refine ⟨?_, ?_, ?_, ?_, ?_, ?_⟩ <;>
      simp [List.foldl_cons, List.any_cons, ic, is2, ish, ishm, ip, ik,
        sc, ss, ssh, sshm, sp, sk, Bool.or_assoc]

lemma step_ne_hup (d : DispState) (e : WltEvent)
    (hd : d.state ≠ ConnState.hup) (he : evHup e = false) :
    (step d e).state ≠ ConnState.hup := by
  cases e with
  | hupEvent => simp [evHup] at he
  | otherGlobal => exact hd
  | seatCaps p k =>
    show (seat_capabilities d p k).state ≠ _
    unfold seat_capabilities
    rcases check_ready_state_or (seatCapsKeyboard (seatCapsPointer d p) k)
      with h | h <;> rw [h]
    · rw [seatCapsKeyboard_state, seatCapsPointer_state]
      exact hd
    · decide
  | globalCompositor =>
    show (dp_global_comp d).state ≠ _
    unfold dp_global_comp
    split
    · exact hd
    · rcases check_ready_state_or { d with w_comp := true } with h | h <;>
        rw [h]
      · exact hd
      · decide
  | globalSeat =>
    show (dp_global_seat d).state ≠ _
    unfold dp_global_seat
    split
    · exact hd
    · rcases check_ready_state_or { d with w_seat := true } with h | h <;>
        rw [h]
      · exact hd
      · decide
  | globalShell =>
    show (dp_global_shell d).state ≠ _
    unfold dp_global_shell
    split
    · exact hd
    · rcases check_ready_state_or { d with w_shell := true } with h | h <;>
        rw [h]
      · exact hd
      · decide
  | globalShm =>
    show (dp_global_shm d).state ≠ _
    unfold dp_global_shm
    split
    · exact hd
    · rcases check_ready_state_or { d with w_shm := true } with h | h <;>
        rw [h]
      · exact hd
      · decide

lemma foldl_ne_hup (l : List WltEvent) :
    ∀ d : DispState, d.state ≠ ConnState.hup → l.any evHup = false →
      (l.foldl step d).state ≠ ConnState.hup := by
  induction l with
  | nil => exact fun d hd _ => hd
  | cons e t ih =>
    intro d hd hany
    rw [List.any_cons] at hany
    simp only [Bool.or_eq_false_iff] at hany
    exact ih (step d e) (step_ne_hup d e hd hany.1) hany.2

/-- C1: the connection is RUNNING only if all six readiness conditions
(compositor, seat, shell, shm globals and the pointer and keyboard seat
devices) hold; the READY broadcast fires at most once over any event
sequence; and any event sequence in which all six conditions arrive (in any
order, without a transport hangup) ends RUNNING with exactly one READY
broadcast. -/
theorem display_ready_exactly_once (l : List WltEvent) :
    ((runEvents l).state = ConnState.running → allSix (runEvents l) = true) ∧
    (runEvents l).readyCount ≤ 1 ∧
    (l.any evComp = true → l.any evSeat = true → l.any evShell = true →
     l.any evShm = true → l.any evPtr = true → l.any evKbd = true →
     l.any evHup = false →
     (runEvents l).state = ConnState.running ∧
       (runEvents l).readyCount = 1) := by
  obtain ⟨g1, g2, g3, g4, g5⟩ := foldl_good l initDisp goodstate_init
  refine ⟨g1, g3, ?_⟩
  intro hc hs hsh hshm hp hk hh
  obtain ⟨fc, fs, fsh, fshm, fp, fk⟩ := foldl_flags l initDisp
  have hsix : allSix (runEvents l) = true := by
    unfold runEvents allSix
    rw [fc, fs, fsh, fshm, fp, fk, hc, hs, hsh, hshm, hp, hk]
    simp [initDisp]
  have hnh : (runEvents l).state ≠ ConnState.hup := by
    unfold runEvents
    exact foldl_ne_hup l initDisp (by decide) hh
  have hrun := g4 hsix hnh
  exact ⟨hrun, g5 hrun⟩

/-- Witness for C1: one arrival sequence covering all six conditions (shm,
both seat capabilities, seat, compositor, shell) ends RUNNING with exactly
one READY broadcast. -/
theorem display_ready_exactly_once_witness :
    (runEvents [WltEvent.globalShm, WltEvent.seatCaps true true,
        WltEvent.globalSeat, WltEvent.globalCompositor,
        WltEvent.globalShell]).state = ConnState.running ∧
    (runEvents [WltEvent.globalShm, WltEvent.seatCaps true true,
        WltEvent.globalSeat, WltEvent.globalCompositor,
        WltEvent.globalShell]).readyCount = 1 :=
  (display_ready_exactly_once [WltEvent.globalShm, WltEvent.seatCaps true true,
      WltEvent.globalSeat, WltEvent.globalCompositor,
      WltEvent.globalShell]).2.2 (by decide) (by decide) (by decide)
    (by decide) (by decide) (by decide) (by decide)

end WltToolkit
